import Mathlib

/-!
# Shallow embedding of the `lmsbysd` library-management application

This file embeds the lending core of the Flask application (`app.py`,
`my_models.py`, `import_books.py`) into Lean and proves properties of it.

Modelling conventions:
* SQLAlchemy rows become Lean structures; the three tables become lists held
  in a `LibState` record, in insertion order (`query.first?` and
  autoincrement primary keys are modelled by `List.find?` and explicit
  `next...Id` counters).
* Each POST handler of a route becomes a function
  `LibState → args → Except LibError LibState`.  A `flash`+redirect that
  aborts the handler before any `db.session` mutation is an `Except.error`
  (the request leaves the database untouched); the error constructor names
  the error-taxonomy class of the message (`validation`, `notFound`,
  `conflict`, `unavailable`, `authorizationFailed`, `internalError`).
  `get_or_404` is `notFound`; `abort(403)` is `authorizationFailed`.
* `datetime.utcnow()` values are `DT`: a calendar day number plus a
  time-of-day in seconds.  `d.date()` is the `day` field; adding a
  `timedelta(days := n)` adds `n` to `day` and keeps the time of day.
* Python `float` fines are modelled as `ℚ`: every fine the code produces is
  `daysLate * 5.0` with a small integer `daysLate`, which IEEE doubles
  represent exactly, so `ℚ` computes the same values.
* The `copies` form field of `add_book`/`edit_book` is a `FormInt`:
  `missing` models an absent/empty field (the Python `or` default applies),
  `nonNumeric` a string on which `int()` raises `ValueError`, and `num n`
  a string parsing to the integer `n`.
* ORM mutation of the single object returned by a query is modelled by
  `updateFirst` (update the first list element matching the predicate);
  `db.session.delete` of that object by `removeFirst`.
-/

/-- Error taxonomy of the specification, used to classify each aborting
`flash`/`abort` path of the handlers. -/
inductive LibError where
  | validation
  | notFound
  | conflict
  | unavailable
  | authenticationFailed
  | authorizationFailed
  | internalError
  deriving DecidableEq

/-- A `datetime.utcnow()` instant: calendar day number and time of day in
seconds.  `.date()` keeps only `day`. -/
structure DT where
  day : Int
  sec : Nat
  deriving DecidableEq

/-- Addition `d + timedelta(days := n)`: shifts the calendar day, keeps the time of
day. -/
def DT.addDays (d : DT) (n : Int) : DT :=
  { d with day := d.day + n }

/-- Constant `DUE_DAYS = 14` (app.py line 28). -/
def DUE_DAYS : Int := 14

/-- Constant `FINE_PER_DAY = 5.0` (app.py line 29). -/
def FINE_PER_DAY : ℚ := 5

/-- The `copies` form field before `int()` conversion. -/
inductive FormInt where
  | missing
  | nonNumeric
  | num (n : Int)
  deriving DecidableEq

/-- The `users` table (my_models.py).  `created_at` is a display-only column
defaulted by the database and read by no handler, so it is omitted.
`password_hash` stores `generate_password_hash password`. -/
structure User where
  id : Nat
  username : String
  password_hash : String
  name : String
  email : String
  role : String
  active : Bool
  deriving DecidableEq

/-- The `book` table (my_models.py).  `isbn` and `category` are nullable
columns (the import script stores `None` for an empty category). -/
structure Book where
  id : Nat
  title : String
  author : String
  isbn : Option String
  publisher : String
  category : Option String
  total_copies : Int
  available_copies : Int
  status : String
  deriving DecidableEq

/-- The `transactions` table (my_models.py). -/
structure BookTransaction where
  id : Nat
  user_id : Nat
  book_id : Nat
  issue_date : DT
  due_date : Option DT
  return_date : Option DT
  fine : ℚ
  status : String
  deriving DecidableEq

/-- The whole database: the three tables plus autoincrement counters. -/
structure LibState where
  users : List User
  books : List Book
  transactions : List BookTransaction
  nextUserId : Nat
  nextBookId : Nat
  nextTransId : Nat
  deriving DecidableEq

/-- Update the first element satisfying `p` (the ORM mutates exactly the
one row the query returned, which is the first match). -/
def updateFirst {α : Type} (l : List α) (p : α → Bool) (f : α → α) : List α :=
  match l with
  | [] => []
  | x :: rest => if p x then f x :: rest else x :: updateFirst rest p f

/-- Delete the first element satisfying `p` (`db.session.delete` removes the
one row the query returned). -/
def removeFirst {α : Type} (l : List α) (p : α → Bool) : List α :=
  match l with
  | [] => []
  | x :: rest => if p x then rest else x :: removeFirst rest p

/-- The whitespace characters stripped by Python `str.strip()`. -/
def isPySpace (c : Char) : Bool :=
  c == ' ' || c == '\t' || c == '\n' || c == '\r' || c == '\x0b' || c == '\x0c'

/-- Python `str.strip()`: drop whitespace from both ends.  Defined by
structural recursion on the character list so that proofs can evaluate
it (`String.trim` of the core library is well-founded recursion, which
the kernel does not reduce). -/
def pyStrip (s : String) : String :=
  ⟨((s.data.dropWhile isPySpace).reverse.dropWhile isPySpace).reverse⟩

/-- ASCII lower-casing of one character. -/
def lowerChar (c : Char) : Char :=
  if 65 ≤ c.toNat ∧ c.toNat ≤ 90 then Char.ofNat (c.toNat + 32) else c

/-- Python `str.lower()` (all strings the application compares are
ASCII). -/
def pyLower (s : String) : String :=
  ⟨s.data.map lowerChar⟩

/-- Hashing via `werkzeug.generate_password_hash`, abstracted: no claim in this file
depends on the hash beyond it being a deterministic function of the
password, so it is modelled as a tagging function. -/
def generate_password_hash (password : String) : String :=
  "pbkdf2:" ++ password

/-- The `register` POST handler (app.py lines 101-156): trims the fields,
lower-cases the email, requires username/password/email nonempty, rejects a
taken username or email, then inserts a `role := "user"`, `active := true`
row. -/
def register (st : LibState) (username password name email : String) :
    Except LibError LibState :=
  if pyStrip username == "" || pyStrip password == "" || pyLower (pyStrip email) == "" then
    Except.error LibError.validation
  else if st.users.any (fun u => u.username == pyStrip username) then
    Except.error LibError.conflict
  else if st.users.any (fun u => u.email == pyLower (pyStrip email)) then
    Except.error LibError.conflict
  else
    Except.ok { st with
      users := st.users ++ [
        { id := st.nextUserId, username := pyStrip username,
          password_hash := generate_password_hash (pyStrip password),
          name := pyStrip name, email := pyLower (pyStrip email),
          role := "user", active := true }],
      nextUserId := st.nextUserId + 1 }

/-- The `copies` coercion of `add_book` (app.py lines 251-256):
int of the copies field defaulting to 1, clamped below by 1, with
`ValueError` falling back to 1. -/
def coerceAddCopies (c : FormInt) : Int :=
  match c with
  | FormInt.missing => 1
  | FormInt.nonNumeric => 1
  | FormInt.num n => if n < 1 then 1 else n

/-- Normalization of the isbn form field (app.py line 243, the stripped
value or None): an empty stripped ISBN is stored as SQL NULL. -/
def normIsbn (isbn : String) : Option String :=
  if pyStrip isbn == "" then none else some (pyStrip isbn)

/-- The `add_book` POST handler (app.py lines 239-263): trims the text fields,
requires title and author nonempty, coerces `copies`, and inserts a book
with `available_copies = total_copies = copies` (model default
`status = "Available"`). -/
def add_book (st : LibState) (title author isbn publisher category : String)
    (copies : FormInt) : Except LibError LibState :=
  if pyStrip title == "" || pyStrip author == "" then
    Except.error LibError.validation
  else
    Except.ok { st with
      books := st.books ++ [
        { id := st.nextBookId, title := pyStrip title,
          author := pyStrip author, isbn := normIsbn isbn,
          publisher := pyStrip publisher, category := some (pyStrip category),
          total_copies := coerceAddCopies copies,
          available_copies := coerceAddCopies copies,
          status := "Available" }],
      nextBookId := st.nextBookId + 1 }

/-- The `copies` coercion of `edit_book` (app.py lines 281-286):
int of the copies field defaulting to the old total, clamped below by 1
inside the `try`, with `ValueError` falling back to the old total
(unclamped). -/
def coerceEditCopies (oldTotal : Int) (c : FormInt) : Int :=
  match c with
  | FormInt.missing => if oldTotal < 1 then 1 else oldTotal
  | FormInt.nonNumeric => oldTotal
  | FormInt.num n => if n < 1 then 1 else n

/-- The `edit_book` POST handler (app.py lines 268-300): looks the book up
(404), requires title and author nonempty, coerces the new total, updates
the text fields, sets `total_copies := new_total` and
`available_copies := max 0 (available_copies + (new_total - old_total))`. -/
def edit_book (st : LibState) (bookId : Nat)
    (title author isbn publisher category : String) (copies : FormInt) :
    Except LibError LibState :=
  match st.books.find? (fun b => b.id == bookId) with
  | none => Except.error LibError.notFound
  | some book =>
    if pyStrip title == "" || pyStrip author == "" then
      Except.error LibError.validation
    else
      Except.ok { st with
        books := updateFirst st.books (fun b => b.id == bookId) (fun b =>
          { b with
            title := pyStrip title, author := pyStrip author,
            isbn := normIsbn isbn,
            publisher := pyStrip publisher, category := some (pyStrip category),
            total_copies := coerceEditCopies book.total_copies copies,
            available_copies := max 0 (b.available_copies +
              (coerceEditCopies book.total_copies copies -
                book.total_copies)) }) }

/-- The `delete_book` POST handler (app.py lines 305-315): looks the book up
(404); if any transaction on it has status `"issued"` the delete is refused
(ConflictError class), otherwise the row is removed. -/
def delete_book (st : LibState) (bookId : Nat) : Except LibError LibState :=
  match st.books.find? (fun b => b.id == bookId) with
  | none => Except.error LibError.notFound
  | some book =>
    if (st.transactions.filter
        (fun t => t.book_id == book.id && t.status == "issued")).length != 0 then
      Except.error LibError.conflict
    else
      Except.ok { st with
        books := removeFirst st.books (fun b => b.id == bookId) }

/-- Self-service `issue_book_to_user` POST handler (app.py lines 320-346):
looks the book up (404), refuses when no copies are available, refuses when
the current user already has an `"issued"` transaction on the book, then
creates the transaction (due in `DUE_DAYS` days) and decrements
`available_copies`. -/
def issue_book_to_user (st : LibState) (currentUserId bookId : Nat)
    (now : DT) : Except LibError LibState :=
  match st.books.find? (fun b => b.id == bookId) with
  | none => Except.error LibError.notFound
  | some book =>
    if book.available_copies ≤ 0 then
      Except.error LibError.unavailable
    else if st.transactions.any (fun t =>
        t.user_id == currentUserId && t.book_id == bookId &&
        t.status == "issued") then
      Except.error LibError.conflict
    else
      Except.ok { st with
        transactions := st.transactions ++ [
          { id := st.nextTransId,
            user_id := currentUserId, book_id := bookId, issue_date := now,
            due_date := some (now.addDays DUE_DAYS), return_date := none,
            fine := 0, status := "issued" }],
        books := updateFirst st.books (fun b => b.id == bookId) (fun b =>
          { b with available_copies := b.available_copies - 1 }),
        nextTransId := st.nextTransId + 1 }

/-- Admin `issue_book` POST handler (app.py lines 370-393): looks up user
and book (an unknown id aborts with "Invalid user or book"), refuses when no
copies are available, then creates the transaction and decrements
`available_copies`.  Note: unlike the self-service route, there is no check
for an existing `"issued"` transaction of the same (user, book) pair. -/
def issue_book (st : LibState) (userId bookId : Nat) (now : DT) :
    Except LibError LibState :=
  match st.users.find? (fun u => u.id == userId),
        st.books.find? (fun b => b.id == bookId) with
  | some user, some book =>
    if book.available_copies ≤ 0 then
      Except.error LibError.unavailable
    else
      Except.ok { st with
        transactions := st.transactions ++ [
          { id := st.nextTransId,
            user_id := userId, book_id := bookId, issue_date := now,
            due_date := some (now.addDays DUE_DAYS), return_date := none,
            fine := 0, status := "issued" }],
        books := updateFirst st.books (fun b => b.id == bookId) (fun b =>
          { b with available_copies := b.available_copies - 1 }),
        nextTransId := st.nextTransId + 1 }
  | _, _ => Except.error LibError.notFound

/-- The fine computation of `return_book` (app.py lines 407-412):
`days_late * FINE_PER_DAY` when the return calendar date is strictly after
the due calendar date (and the due date is set), else `0.0`.  Only the
`day` fields enter; the time of day is discarded by `.date()`. -/
def computeFine (due : Option DT) (ret : DT) : ℚ :=
  match due with
  | none => 0
  | some d => if d.day < ret.day then ((ret.day - d.day : Int) : ℚ) * FINE_PER_DAY else 0

/-- The `return_book` POST handler (app.py lines 400-422): looks the
transaction up (404), aborts 403 unless the actor is admin or the owner,
then — with no check of the current transaction status — sets
`return_date := now`, recomputes the fine, sets `status := "returned"`, and
sets the book field `available_copies := min total_copies (available_copies + 1)`.
If the referenced book row no longer exists, `tr.book` is `None` and the
handler raises before committing (`internalError`, nothing mutated). -/
def return_book (st : LibState) (transId actingUserId : Nat)
    (actingRole : String) (now : DT) : Except LibError LibState :=
  match st.transactions.find? (fun t => t.id == transId) with
  | none => Except.error LibError.notFound
  | some tr =>
    if actingRole != "admin" && tr.user_id != actingUserId then
      Except.error LibError.authorizationFailed
    else
      match st.books.find? (fun b => b.id == tr.book_id) with
      | none => Except.error LibError.internalError
      | some _ =>
        Except.ok { st with
          transactions := updateFirst st.transactions
            (fun t => t.id == transId) (fun t =>
              { t with
                return_date := some now,
                fine := computeFine tr.due_date now,
                status := "returned" }),
          books := updateFirst st.books (fun b => b.id == tr.book_id)
            (fun b =>
              { b with
                available_copies :=
                  min b.total_copies (b.available_copies + 1) }) }

/-- One CSV row of `import_books.py` (columns title, author, category,
status). -/
structure CsvRow where
  title : String
  author : String
  category : String
  status : String
  deriving DecidableEq

/-- One iteration of the import loop (import_books.py lines 15-60): trims
the fields, lower-cases the status, skips rows with a missing title or
author and rows whose (title, author) pair already exists, and otherwise
adds a book with `total_copies = 1` and `available_copies = 0` exactly for
status `"issued"` (1 for `"available"` and for anything else). -/
def importRow (acc : List Book × Nat) (row : CsvRow) : List Book × Nat :=
  if pyStrip row.title == "" || pyStrip row.author == "" then acc
  else if acc.1.any (fun b =>
      b.title == pyStrip row.title && b.author == pyStrip row.author) then acc
  else
    (acc.1 ++ [
      { id := acc.2, title := pyStrip row.title, author := pyStrip row.author,
        isbn := none, publisher := "",
        category := if pyStrip row.category == "" then none
          else some (pyStrip row.category),
        total_copies := 1,
        available_copies := if pyLower (pyStrip row.status) == "issued"
          then 0 else 1,
        status := if pyLower (pyStrip row.status) == "available"
          then "Available" else "Issued" }], acc.2 + 1)

/-- The whole import run: fold `importRow` over the CSV rows. -/
def importBooks (books : List Book) (nextId : Nat) (rows : List CsvRow) :
    List Book × Nat :=
  rows.foldl importRow (books, nextId)

/-- The catalog/ledger operations of the claim "every state reachable by
any sequence of addBook, editBook, deleteBook, issue and returnBook"
(`regUser` is included so that reachable states can hold users for the
admin issue route). -/
inductive Op where
  | regUser (username password name email : String)
  | addB (title author isbn publisher category : String) (copies : FormInt)
  | editB (bookId : Nat) (title author isbn publisher category : String)
      (copies : FormInt)
  | deleteB (bookId : Nat)
  | issueSelf (userId bookId : Nat) (now : DT)
  | issueAdmin (userId bookId : Nat) (now : DT)
  | returnB (transId actingUserId : Nat) (actingRole : String) (now : DT)
  deriving DecidableEq

/-- Dispatch one operation to its handler. -/
def stepOp (st : LibState) (op : Op) : Except LibError LibState :=
  match op with
  | Op.regUser u p n e => register st u p n e
  | Op.addB t a i p c cp => add_book st t a i p c cp
  | Op.editB bid t a i p c cp => edit_book st bid t a i p c cp
  | Op.deleteB bid => delete_book st bid
  | Op.issueSelf uid bid now => issue_book_to_user st uid bid now
  | Op.issueAdmin uid bid now => issue_book st uid bid now
  | Op.returnB tid uid role now => return_book st tid uid role now

/-- A failing request leaves the database unchanged; a successful one
commits. -/
def applyOp (st : LibState) (op : Op) : LibState :=
  match stepOp st op with
  | Except.ok st' => st'
  | Except.error _ => st

/-- The freshly created database (`db.create_all()` on a new file). -/
def emptyState : LibState :=
  { users := [], books := [], transactions := [],
    nextUserId := 1, nextBookId := 1, nextTransId := 1 }

/-- The state after running a sequence of operations from the empty
database. -/
def runOps (ops : List Op) : LibState :=
  ops.foldl applyOp emptyState

/-- Number of `"issued"` transactions referencing a book
(the count query over transactions filtered by book id and issued status). -/
def issuedCount (st : LibState) (bookId : Nat) : Nat :=
  (st.transactions.filter
    (fun t => t.book_id == bookId && t.status == "issued")).length

/-- The copy bound of every book: `0 ≤ available_copies ≤ total_copies`. -/
def booksBound (st : LibState) : Prop :=
  ∀ b ∈ st.books, 0 ≤ b.available_copies ∧ b.available_copies ≤ b.total_copies

/-- The full invariant claimed by the specification: the copy bound plus
`available_copies = total_copies - issuedCount`. -/
def booksExact (st : LibState) : Prop :=
  ∀ b ∈ st.books,
    0 ≤ b.available_copies ∧ b.available_copies ≤ b.total_copies ∧
    b.available_copies = b.total_copies - (issuedCount st b.id : Int)

instance (st : LibState) : Decidable (booksBound st) := by
  unfold booksBound
  infer_instance

instance (st : LibState) : Decidable (booksExact st) := by
  unfold booksExact
  infer_instance

/-- Projection used to state counterexamples: the committed state of a
successful request, `none` on a failing one. -/
def okState (e : Except LibError LibState) : Option LibState :=
  match e with
  | Except.ok s => some s
  | Except.error _ => none

/-! ## Basic lemmas about the list-update primitives -/

theorem mem_of_mem_removeFirst {α : Type} {l : List α} {p : α → Bool} {y : α}
    (hy : y ∈ removeFirst l p) : y ∈ l := by
  induction l with
  | nil => simp [removeFirst] at hy
  | cons x rest ih =>
    unfold removeFirst at hy
    cases hpx : p x with
    | true =>
      simp only [hpx, if_true] at hy
      exact List.mem_cons_of_mem x hy
    | false =>
      simp only [hpx, Bool.false_eq_true, if_false, List.mem_cons] at hy
      rcases hy with h1 | h1
      · exact h1 ▸ List.mem_cons_self x rest
      · exact List.mem_cons_of_mem x (ih h1)

theorem mem_updateFirst_of_find? {α : Type} {l : List α} {p : α → Bool}
    {f : α → α} {x : α} (hfind : l.find? p = some x) :
    ∀ y ∈ updateFirst l p f, y ∈ l ∨ y = f x := by
  induction l with
  | nil => simp [updateFirst]
  | cons a rest ih =>
    intro y hy
    unfold updateFirst at hy
    cases hpa : p a with
    | true =>
      rw [List.find?_cons_of_pos rest hpa] at hfind
      injection hfind with hax
      subst hax
      simp only [hpa, if_true, List.mem_cons] at hy
      rcases hy with h1 | h1
      · exact Or.inr h1
      · exact Or.inl (List.mem_cons_of_mem a h1)
    | false =>
      rw [List.find?_cons_of_neg rest (by simp [hpa])] at hfind
      simp only [hpa, Bool.false_eq_true, if_false, List.mem_cons] at hy
      rcases hy with h1 | h1
      · exact Or.inl (h1 ▸ List.mem_cons_self a rest)
      · rcases ih hfind y h1 with h2 | h2
        · exact Or.inl (List.mem_cons_of_mem a h2)
        · exact Or.inr h2

theorem updated_mem_updateFirst_of_find? {α : Type} {l : List α}
    {p : α → Bool} {f : α → α} {x : α} (hfind : l.find? p = some x) :
    f x ∈ updateFirst l p f := by
  induction l with
  | nil => simp [List.find?_nil] at hfind
  | cons a rest ih =>
    unfold updateFirst
    cases hpa : p a with
    | true =>
      rw [List.find?_cons_of_pos rest hpa] at hfind
      injection hfind with hax
      subst hax
      simp [hpa]
    | false =>
      rw [List.find?_cons_of_neg rest (by simp [hpa])] at hfind
      simp only [hpa, Bool.false_eq_true, if_false, List.mem_cons]
      exact Or.inr (ih hfind)

/-! ## Bounds on the copies coercions -/

theorem coerceAddCopies_pos (c : FormInt) : 1 ≤ coerceAddCopies c := by
  cases c with
  | missing => exact le_refl 1
  | nonNumeric => exact le_refl 1
  | num n =>
    unfold coerceAddCopies
    split <;> omega

theorem coerceEditCopies_nonneg {oldTotal : Int} (h : 0 ≤ oldTotal)
    (c : FormInt) : 0 ≤ coerceEditCopies oldTotal c := by
  cases c with
  | missing =>
    unfold coerceEditCopies
    split <;> omega
  | nonNumeric => exact h
  | num n =>
    unfold coerceEditCopies
    split <;> omega

/-! ## Each operation preserves the copy bound `0 ≤ available ≤ total` -/

theorem register_bound {st st' : LibState} {a b c d : String}
    (h : register st a b c d = Except.ok st') (hb : booksBound st) :
    booksBound st' := by
  unfold register at h
  split at h
  · simp at h
  · split at h
    · simp at h
    · split at h
      · simp at h
      · simp only [Except.ok.injEq] at h
        subst h
        exact hb

theorem add_book_bound {st st' : LibState} {t a i p c : String}
    {cp : FormInt} (h : add_book st t a i p c cp = Except.ok st')
    (hb : booksBound st) : booksBound st' := by
  unfold add_book at h
  split at h
  · simp at h
  · simp only [Except.ok.injEq] at h
    subst h
    intro b hbm
    simp only [List.mem_append, List.mem_singleton] at hbm
    rcases hbm with hm | hm
    · exact hb b hm
    · subst hm
      have := coerceAddCopies_pos cp
      dsimp only
      exact ⟨by omega, le_refl _⟩

theorem edit_book_bound {st st' : LibState} {bid : Nat}
    {t a i p c : String} {cp : FormInt}
    (h : edit_book st bid t a i p c cp = Except.ok st')
    (hb : booksBound st) : booksBound st' := by
  unfold edit_book at h
  split at h
  · simp at h
  · rename_i book hfind
    split at h
    · simp at h
    · simp only [Except.ok.injEq] at h
      subst h
      intro b hbm
      rcases mem_updateFirst_of_find? hfind b hbm with hm | hm
      · exact hb b hm
      · subst hm
        have hbbk := hb book (List.mem_of_find?_eq_some hfind)
        dsimp only
        refine ⟨le_max_left 0 _, max_le ?_ ?_⟩
        · exact coerceEditCopies_nonneg (by omega) cp
        · omega

theorem delete_book_bound {st st' : LibState} {bid : Nat}
    (h : delete_book st bid = Except.ok st') (hb : booksBound st) :
    booksBound st' := by
  unfold delete_book at h
  split at h
  · simp at h
  · split at h
    · simp at h
    · simp only [Except.ok.injEq] at h
      subst h
      intro b hbm
      exact hb b (mem_of_mem_removeFirst hbm)

theorem issue_book_to_user_bound {st st' : LibState} {uid bid : Nat}
    {now : DT} (h : issue_book_to_user st uid bid now = Except.ok st')
    (hb : booksBound st) : booksBound st' := by
  unfold issue_book_to_user at h
  split at h
  · simp at h
  · rename_i book hfind
    split at h
    · simp at h
    · rename_i hpos
      split at h
      · simp at h
      · simp only [Except.ok.injEq] at h
        subst h
        intro b hbm
        rcases mem_updateFirst_of_find? hfind b hbm with hm | hm
        · exact hb b hm
        · subst hm
          have hbbk := hb book (List.mem_of_find?_eq_some hfind)
          dsimp only
          exact ⟨by omega, by omega⟩

theorem issue_book_bound {st st' : LibState} {uid bid : Nat} {now : DT}
    (h : issue_book st uid bid now = Except.ok st') (hb : booksBound st) :
    booksBound st' := by
  unfold issue_book at h
  split at h
  · rename_i user book hu hfind
    split at h
    · simp at h
    · rename_i hpos
      simp only [Except.ok.injEq] at h
      subst h
      intro b hbm
      rcases mem_updateFirst_of_find? hfind b hbm with hm | hm
      · exact hb b hm
      · subst hm
        have hbbk := hb book (List.mem_of_find?_eq_some hfind)
        dsimp only
        exact ⟨by omega, by omega⟩
  · simp at h

theorem return_book_bound {st st' : LibState} {tid uid : Nat}
    {role : String} {now : DT}
    (h : return_book st tid uid role now = Except.ok st')
    (hb : booksBound st) : booksBound st' := by
  unfold return_book at h
  split at h
  · simp at h
  · rename_i tr hfind
    split at h
    · simp at h
    · split at h
      · simp at h
      · rename_i bk hbk
        simp only [Except.ok.injEq] at h
        subst h
        intro b hbm
        rcases mem_updateFirst_of_find? hbk b hbm with hm | hm
        · exact hb b hm
        · subst hm
          have hbbk := hb bk (List.mem_of_find?_eq_some hbk)
          dsimp only
          exact ⟨le_min (by omega) (by omega), min_le_left _ _⟩

theorem stepOp_bound {st st' : LibState} {op : Op}
    (h : stepOp st op = Except.ok st') (hb : booksBound st) :
    booksBound st' := by
  cases op with
  | regUser u p n e => exact register_bound h hb
  | addB t a i p c cp => exact add_book_bound h hb
  | editB bid t a i p c cp => exact edit_book_bound h hb
  | deleteB bid => exact delete_book_bound h hb
  | issueSelf uid bid now => exact issue_book_to_user_bound h hb
  | issueAdmin uid bid now => exact issue_book_bound h hb
  | returnB tid uid role now => exact return_book_bound h hb

theorem applyOp_bound {st : LibState} (op : Op) (hb : booksBound st) :
    booksBound (applyOp st op) := by
  unfold applyOp
  split
  · rename_i st' hok
    exact stepOp_bound hok hb
  · exact hb

theorem foldl_applyOp_bound (ops : List Op) :
    ∀ st : LibState, booksBound st → booksBound (ops.foldl applyOp st) := by
  induction ops with
  | nil => intro st h; exact h
  | cons op rest ih => intro st h; exact ih _ (applyOp_bound op h)

/-! ## Result characterizations of the handler paths -/

theorem return_book_ok_eq {st : LibState} {tid uid : Nat} {role : String}
    {now : DT} {tr : BookTransaction} {bk : Book}
    (hfind : st.transactions.find? (fun t => t.id == tid) = some tr)
    (hauth : role = "admin" ∨ tr.user_id = uid)
    (hbk : st.books.find? (fun b => b.id == tr.book_id) = some bk) :
    return_book st tid uid role now =
      Except.ok { st with
        transactions := updateFirst st.transactions (fun t => t.id == tid)
          (fun t =>
            { t with
              return_date := some now,
              fine := computeFine tr.due_date now,
              status := "returned" }),
        books := updateFirst st.books (fun b => b.id == tr.book_id)
          (fun b =>
            { b with
              available_copies :=
                min b.total_copies (b.available_copies + 1) }) } := by
  have hcond : (role != "admin" && tr.user_id != uid) = false := by
    rcases hauth with h | h <;> simp [h]
  unfold return_book
  rw [hfind]
  simp only [hcond, Bool.false_eq_true, if_false]
  rw [hbk]

theorem issue_book_to_user_unavailable {st : LibState} {uid bid : Nat}
    {now : DT} {book : Book}
    (hfind : st.books.find? (fun b => b.id == bid) = some book)
    (hneg : book.available_copies ≤ 0) :
    issue_book_to_user st uid bid now = Except.error LibError.unavailable := by
  unfold issue_book_to_user
  rw [hfind]
  simp only [if_pos hneg]

theorem issue_book_to_user_conflict {st : LibState} {uid bid : Nat}
    {now : DT} {book : Book}
    (hfind : st.books.find? (fun b => b.id == bid) = some book)
    (hpos : ¬ book.available_copies ≤ 0)
    (hdup : st.transactions.any (fun t =>
      t.user_id == uid && t.book_id == bid && t.status == "issued") = true) :
    issue_book_to_user st uid bid now = Except.error LibError.conflict := by
  unfold issue_book_to_user
  rw [hfind]
  simp only [if_neg hpos, hdup, if_true]

theorem issue_book_to_user_ok_eq {st : LibState} {uid bid : Nat}
    {now : DT} {book : Book}
    (hfind : st.books.find? (fun b => b.id == bid) = some book)
    (hpos : ¬ book.available_copies ≤ 0)
    (hnodup : st.transactions.any (fun t =>
      t.user_id == uid && t.book_id == bid && t.status == "issued") = false) :
    issue_book_to_user st uid bid now =
      Except.ok { st with
        transactions := st.transactions ++ [
          { id := st.nextTransId, user_id := uid, book_id := bid,
            issue_date := now, due_date := some (now.addDays DUE_DAYS),
            return_date := none, fine := 0, status := "issued" }],
        books := updateFirst st.books (fun b => b.id == bid) (fun b =>
          { b with available_copies := b.available_copies - 1 }),
        nextTransId := st.nextTransId + 1 } := by
  unfold issue_book_to_user
  rw [hfind]
  simp only [if_neg hpos, hnodup, Bool.false_eq_true, if_false]

theorem issue_book_unavailable {st : LibState} {uid bid : Nat} {now : DT}
    {u : User} {book : Book}
    (hu : st.users.find? (fun x => x.id == uid) = some u)
    (hbk : st.books.find? (fun b => b.id == bid) = some book)
    (hneg : book.available_copies ≤ 0) :
    issue_book st uid bid now = Except.error LibError.unavailable := by
  unfold issue_book
  rw [hu, hbk]
  simp only [if_pos hneg]

theorem issue_book_ok_eq {st : LibState} {uid bid : Nat} {now : DT}
    {u : User} {book : Book}
    (hu : st.users.find? (fun x => x.id == uid) = some u)
    (hbk : st.books.find? (fun b => b.id == bid) = some book)
    (hpos : ¬ book.available_copies ≤ 0) :
    issue_book st uid bid now =
      Except.ok { st with
        transactions := st.transactions ++ [
          { id := st.nextTransId, user_id := uid, book_id := bid,
            issue_date := now, due_date := some (now.addDays DUE_DAYS),
            return_date := none, fine := 0, status := "issued" }],
        books := updateFirst st.books (fun b => b.id == bid) (fun b =>
          { b with available_copies := b.available_copies - 1 }),
        nextTransId := st.nextTransId + 1 } := by
  unfold issue_book
  rw [hu, hbk]
  simp only [if_neg hpos]

/-! ## Concrete fixtures used by counterexamples and witnesses -/

/-- Midnight of day 0. -/
def day0 : DT := ⟨0, 0⟩

/-- Day 16, shortly after midnight (two calendar days past a day-14 due
date). -/
def day16 : DT := ⟨16, 60⟩

/-- A registered ordinary user. -/
def userA : User :=
  ⟨1, "alice", "pbkdf2:pw", "Alice", "alice@example.com", "user", true⟩

/-- A two-copy book of which one copy is out. -/
def bookA : Book := ⟨1, "Dune", "Herbert", none, "", some "", 2, 1, "Available"⟩

/-- The outstanding transaction: userA holds bookA, due on day 14. -/
def trIss : BookTransaction :=
  ⟨1, 1, 1, day0, some (DT.addDays day0 14), none, 0, "issued"⟩

/-- Database state: one user, one book (1 of 2 copies available), one
`"issued"` transaction of (userA, bookA). -/
def stIssued : LibState := ⟨[userA], [bookA], [trIss], 2, 2, 2⟩

/-- The same transaction after a first return on day 14. -/
def trRet : BookTransaction :=
  { trIss with return_date := some ⟨14, 3600⟩, status := "returned" }

/-- Database state in which the transaction has already been returned. -/
def stReturned : LibState := ⟨[userA], [bookA], [trRet], 2, 2, 2⟩

/-! ## Claim C1 -/

/-- Claim C1, counterexample to the claim as stated: in `stReturned` the
transaction has status `"returned"`, yet `return_book` on it does not
fail with ConflictError — it succeeds (`okState` is `some`) and mutates
the state (the committed state differs from the original). -/
theorem returnBook_second_return_counterexample :
    trRet.status ≠ "issued" ∧ trRet ∈ stReturned.transactions ∧
    (okState (return_book stReturned 1 1 "user" day16)).isSome = true ∧
    okState (return_book stReturned 1 1 "user" day16) ≠ some stReturned := by
  decide

/-- Claim C1 (amended): `return_book` performs no status check.  For every
transaction — in particular one whose status is not `"issued"`, i.e. an
already-returned one — a return call by the owner or an admin succeeds,
re-sets `return_date` to the new instant, recomputes the fine, sets
`status := "returned"` again, and sets the book field `available_copies` to
`min total_copies (available_copies + 1)`; it does not fail with
ConflictError and it does mutate the transaction. -/
theorem returnBook_second_return_succeeds
    (st : LibState) (tid uid : Nat) (role : String) (now : DT)
    (tr : BookTransaction) (bk : Book)
    (hfind : st.transactions.find? (fun t => t.id == tid) = some tr)
    (hstatus : tr.status ≠ "issued")
    (hauth : role = "admin" ∨ tr.user_id = uid)
    (hbk : st.books.find? (fun b => b.id == tr.book_id) = some bk) :
    return_book st tid uid role now =
      Except.ok { st with
        transactions := updateFirst st.transactions (fun t => t.id == tid)
          (fun t =>
            { t with
              return_date := some now,
              fine := computeFine tr.due_date now,
              status := "returned" }),
        books := updateFirst st.books (fun b => b.id == tr.book_id)
          (fun b =>
            { b with
              available_copies :=
                min b.total_copies (b.available_copies + 1) }) } :=
  return_book_ok_eq hfind hauth hbk

/-- Claim C1 witness: the amended theorem applied to the concrete
already-returned fixture. -/
theorem returnBook_second_return_witness :
    return_book stReturned 1 1 "user" day16 =
      Except.ok { stReturned with
        transactions := updateFirst stReturned.transactions
          (fun t => t.id == 1) (fun t =>
            { t with
              return_date := some day16,
              fine := computeFine trRet.due_date day16,
              status := "returned" }),
        books := updateFirst stReturned.books (fun b => b.id == trRet.book_id)
          (fun b =>
            { b with
              available_copies :=
                min b.total_copies (b.available_copies + 1) }) } :=
  returnBook_second_return_succeeds stReturned 1 1 "user" day16 trRet bookA
    (by decide) (by decide) (Or.inr rfl) (by decide)

/-! ## Claim C2 -/

/-- Claim C2, counterexample to the claim as stated: in `stIssued` a
(user 1, book 1, status `"issued"`) transaction exists and a copy is
available, yet the admin-assisted `issue_book` call for the same pair does
not fail with ConflictError: it succeeds and appends a second transaction
(the ledger grows from 1 to 2 rows). -/
theorem issue_duplicate_admin_counterexample :
    stIssued.transactions.any (fun t =>
      t.user_id == 1 && t.book_id == 1 && t.status == "issued") = true ∧
    (okState (issue_book stIssued 1 1 day0)).map
      (fun s => s.transactions.length) = some 2 := by
  decide

/-- Claim C2 (amended): only the self-service route enforces the
duplicate-issue check.  Self-service issue with a (userId, bookId,
`"issued"`) transaction present and a copy available fails with
ConflictError (and creates nothing, the call being an error); the
admin-assisted route performs no such check — with an existing user and
book and a copy available it succeeds and appends a fresh `"issued"`
transaction even though the duplicate exists. -/
theorem issue_duplicate_check_self_only :
    (∀ (st : LibState) (uid bid : Nat) (now : DT) (book : Book),
      st.books.find? (fun b => b.id == bid) = some book →
      ¬ book.available_copies ≤ 0 →
      st.transactions.any (fun t =>
        t.user_id == uid && t.book_id == bid && t.status == "issued") = true →
      issue_book_to_user st uid bid now = Except.error LibError.conflict) ∧
    (∀ (st : LibState) (uid bid : Nat) (now : DT) (u : User) (book : Book),
      st.users.find? (fun x => x.id == uid) = some u →
      st.books.find? (fun b => b.id == bid) = some book →
      ¬ book.available_copies ≤ 0 →
      st.transactions.any (fun t =>
        t.user_id == uid && t.book_id == bid && t.status == "issued") = true →
      issue_book st uid bid now =
        Except.ok { st with
          transactions := st.transactions ++ [
            { id := st.nextTransId, user_id := uid, book_id := bid,
              issue_date := now, due_date := some (now.addDays DUE_DAYS),
              return_date := none, fine := 0, status := "issued" }],
          books := updateFirst st.books (fun b => b.id == bid) (fun b =>
            { b with available_copies := b.available_copies - 1 }),
          nextTransId := st.nextTransId + 1 }) := by
  constructor
  · intro st uid bid now book hfind hpos hdup
    exact issue_book_to_user_conflict hfind hpos hdup
  · intro st uid bid now u book hu hbk hpos _hdup
    exact issue_book_ok_eq hu hbk hpos

/-- Claim C2 witness: both halves of the amended theorem applied to the
concrete fixture with the duplicate present. -/
theorem issue_duplicate_check_self_only_witness :
    issue_book_to_user stIssued 1 1 day0 = Except.error LibError.conflict ∧
    issue_book stIssued 1 1 day0 =
      Except.ok { stIssued with
        transactions := stIssued.transactions ++ [
          { id := stIssued.nextTransId, user_id := 1, book_id := 1,
            issue_date := day0, due_date := some (day0.addDays DUE_DAYS),
            return_date := none, fine := 0, status := "issued" }],
        books := updateFirst stIssued.books (fun b => b.id == 1) (fun b =>
          { b with available_copies := b.available_copies - 1 }),
        nextTransId := stIssued.nextTransId + 1 } :=
  ⟨issue_duplicate_check_self_only.1 stIssued 1 1 day0 bookA (by decide)
      (by decide) (by decide),
    issue_duplicate_check_self_only.2 stIssued 1 1 day0 userA bookA
      (by decide) (by decide) (by decide) (by decide)⟩

/-! ## Claim C3 -/

/-- An operation trace refuting the exact copy-accounting equation: a
5-copy book is added, four distinct users issue it (1 copy left, 4 issued
transactions), then an admin edits the total down to 1.  The edit applies
the delta to `available_copies` floored at 0, so the book ends with
`total_copies = 1`, `available_copies = 0`, but 4 `"issued"`
transactions — the equation would require `available = 1 - 4 = -3`. -/
def demoOps : List Op :=
  [Op.addB "A" "B" "" "" "" (FormInt.num 5),
   Op.issueSelf 1 1 day0, Op.issueSelf 2 1 day0,
   Op.issueSelf 3 1 day0, Op.issueSelf 4 1 day0,
   Op.editB 1 "A" "B" "" "" "" (FormInt.num 1)]

/-- Claim C3, counterexample to the claim as stated: the state reached by
`demoOps` (addBook; issue ×4; editBook) violates
`available_copies = total_copies - issuedCount`. -/
theorem reachable_invariant_counterexample : ¬ booksExact (runOps demoOps) := by
  decide

/-- Claim C3 (amended): in every state reachable by any sequence of the
operations (register, addBook, editBook, deleteBook, self-service issue,
admin issue, returnBook) every book satisfies
`0 ≤ available_copies ≤ total_copies`.  The second half of the original
claim — `available_copies = total_copies - issuedCount` — is refuted by
the counterexample (the editBook floor at 0 breaks it, as does a double
return), so only the bound remains. -/
theorem reachable_books_bound (ops : List Op) : booksBound (runOps ops) :=
  foldl_applyOp_bound ops emptyState (by intro b hb; simp [emptyState] at hb)

/-- Claim C3 witness: the bound holds in the concrete reachable state of
the counterexample trace. -/
theorem reachable_books_bound_witness : booksBound (runOps demoOps) :=
  reachable_books_bound demoOps

/-! ## Claim C4 -/

/-- Claim C4: the fine of a return equals
`max 0 (calendar days late) * FINE_PER_DAY`, comparing the calendar-day
fields only — the time-of-day components of `now` and of the due instant
do not enter the formula, which holds for arbitrary `sec` fields. -/
theorem return_fine_calendar_days
    (st : LibState) (tid uid : Nat) (role : String) (now : DT)
    (tr : BookTransaction) (bk : Book) (d : DT)
    (hfind : st.transactions.find? (fun t => t.id == tid) = some tr)
    (hstatus : tr.status = "issued")
    (hauth : role = "admin" ∨ tr.user_id = uid)
    (hbk : st.books.find? (fun b => b.id == tr.book_id) = some bk)
    (hdue : tr.due_date = some d) :
    ∃ st', return_book st tid uid role now = Except.ok st' ∧
      { tr with
        return_date := some now,
        fine := ((max 0 (now.day - d.day) : Int) : ℚ) * FINE_PER_DAY,
        status := "returned" } ∈ st'.transactions := by
  have hfine : computeFine tr.due_date now =
      ((max 0 (now.day - d.day) : Int) : ℚ) * FINE_PER_DAY := by
    rw [hdue]
    simp only [computeFine]
    split
    · rename_i hlt
      rw [max_eq_right (by omega : (0 : Int) ≤ now.day - d.day)]
    · rename_i hge
      rw [max_eq_left (by omega : now.day - d.day ≤ (0 : Int))]
      simp
  refine ⟨_, return_book_ok_eq hfind hauth hbk, ?_⟩
  dsimp only
  rw [← hfine]
  exact updated_mem_updateFirst_of_find? hfind

/-- Claim C4 witness: returning on day 16 a transaction due on day 14
(2 calendar days late, times of day differing) yields fine
`2 * FINE_PER_DAY = 10.0`. -/
theorem return_fine_calendar_days_witness :
    ((max 0 (day16.day - (DT.addDays day0 14).day) : Int) : ℚ) *
        FINE_PER_DAY = 10 ∧
    (∃ st', return_book stIssued 1 1 "user" day16 = Except.ok st' ∧
      { trIss with
        return_date := some day16,
        fine := ((max 0 (day16.day - (DT.addDays day0 14).day) : Int) : ℚ) *
          FINE_PER_DAY,
        status := "returned" } ∈ st'.transactions) :=
  ⟨by
      rw [(by decide :
        (max 0 (day16.day - (DT.addDays day0 14).day) : Int) = 2)]
      norm_num [FINE_PER_DAY],
    return_fine_calendar_days stIssued 1 1 "user" day16 trIss bookA
      (DT.addDays day0 14) (by decide) rfl (Or.inr rfl) (by decide) rfl⟩

/-! ## Claim C5 -/

/-- Claim C5, counterexample to the claim as stated: in `stIssued` the
book has a copy available (`available_copies = 1 > 0`), yet the
self-service issue call does not create a transaction — it fails with
ConflictError because the user already holds the book, contradicting the
clause "otherwise it creates exactly one transaction" of the claim. -/
theorem issue_otherwise_counterexample :
    bookA ∈ stIssued.books ∧ 0 < bookA.available_copies ∧
    issue_book_to_user stIssued 1 1 day0 = Except.error LibError.conflict ∧
    okState (issue_book_to_user stIssued 1 1 day0) = none :=
  ⟨by decide, by decide, rfl, rfl⟩

/-- Claim C5 (amended): for an issue call on an existing book (and, on the
admin route, an existing user): with `available_copies ≤ 0` the call fails
with UnavailableError and mutates nothing; with a copy available it creates
exactly one `"issued"` transaction with `due_date = now + DUE_DAYS` and
decrements the book field `available_copies` by 1 — provided, on the
self-service route only, that the user does not already hold the book
(otherwise that route fails with ConflictError, see the duplicate-check
claim). -/
theorem issue_availability_and_creation :
    (∀ (st : LibState) (uid bid : Nat) (now : DT) (book : Book),
      st.books.find? (fun b => b.id == bid) = some book →
      book.available_copies ≤ 0 →
      issue_book_to_user st uid bid now =
        Except.error LibError.unavailable) ∧
    (∀ (st : LibState) (uid bid : Nat) (now : DT) (u : User) (book : Book),
      st.users.find? (fun x => x.id == uid) = some u →
      st.books.find? (fun b => b.id == bid) = some book →
      book.available_copies ≤ 0 →
      issue_book st uid bid now = Except.error LibError.unavailable) ∧
    (∀ (st : LibState) (uid bid : Nat) (now : DT) (book : Book),
      st.books.find? (fun b => b.id == bid) = some book →
      ¬ book.available_copies ≤ 0 →
      st.transactions.any (fun t =>
        t.user_id == uid && t.book_id == bid && t.status == "issued") =
        false →
      issue_book_to_user st uid bid now =
        Except.ok { st with
          transactions := st.transactions ++ [
            { id := st.nextTransId, user_id := uid, book_id := bid,
              issue_date := now, due_date := some (now.addDays DUE_DAYS),
              return_date := none, fine := 0, status := "issued" }],
          books := updateFirst st.books (fun b => b.id == bid) (fun b =>
            { b with available_copies := b.available_copies - 1 }),
          nextTransId := st.nextTransId + 1 }) ∧
    (∀ (st : LibState) (uid bid : Nat) (now : DT) (u : User) (book : Book),
      st.users.find? (fun x => x.id == uid) = some u →
      st.books.find? (fun b => b.id == bid) = some book →
      ¬ book.available_copies ≤ 0 →
      issue_book st uid bid now =
        Except.ok { st with
          transactions := st.transactions ++ [
            { id := st.nextTransId, user_id := uid, book_id := bid,
              issue_date := now, due_date := some (now.addDays DUE_DAYS),
              return_date := none, fine := 0, status := "issued" }],
          books := updateFirst st.books (fun b => b.id == bid) (fun b =>
            { b with available_copies := b.available_copies - 1 }),
          nextTransId := st.nextTransId + 1 }) := by
  refine ⟨?_, ?_, ?_, ?_⟩
  · intro st uid bid now book hfind hneg
    exact issue_book_to_user_unavailable hfind hneg
  · intro st uid bid now u book hu hbk hneg
    exact issue_book_unavailable hu hbk hneg
  · intro st uid bid now book hfind hpos hnodup
    exact issue_book_to_user_ok_eq hfind hpos hnodup
  · intro st uid bid now u book hu hbk hpos
    exact issue_book_ok_eq hu hbk hpos

/-- A one-copy book with no copy currently available. -/
def bookZero : Book := ⟨1, "Dune", "Herbert", none, "", some "", 1, 0, "Available"⟩

/-- State with a fully checked-out book and no open transaction rows. -/
def stZero : LibState := ⟨[userA], [bookZero], [], 2, 2, 2⟩

/-- Claim C5 witness: the unavailable branch on `stZero` and the creation
branch on `stReturned` (copy available, no open duplicate). -/
theorem issue_availability_and_creation_witness :
    issue_book_to_user stZero 1 1 day0 =
      Except.error LibError.unavailable ∧
    issue_book_to_user stReturned 1 1 day0 =
      Except.ok { stReturned with
        transactions := stReturned.transactions ++ [
          { id := stReturned.nextTransId, user_id := 1, book_id := 1,
            issue_date := day0, due_date := some (day0.addDays DUE_DAYS),
            return_date := none, fine := 0, status := "issued" }],
        books := updateFirst stReturned.books (fun b => b.id == 1) (fun b =>
          { b with available_copies := b.available_copies - 1 }),
        nextTransId := stReturned.nextTransId + 1 } :=
  ⟨issue_availability_and_creation.1 stZero 1 1 day0 bookZero (by decide)
      (by decide),
    (issue_availability_and_creation.2.2.1) stReturned 1 1 day0 bookA
      (by decide) (by decide) (by decide)⟩

/-! ## Claim C6 -/

/-- Claim C6: `delete_book` on an existing book fails with ConflictError
(leaving the record in place — the state is not returned, and the book
remains a member of the untouched table) when at least one `"issued"`
transaction references the book, and removes the record when none does. -/
theorem deleteBook_issued_guard (st : LibState) (bid : Nat) (bk : Book)
    (hfind : st.books.find? (fun b => b.id == bid) = some bk) :
    (issuedCount st bk.id ≠ 0 →
      delete_book st bid = Except.error LibError.conflict ∧
      bk ∈ st.books) ∧
    (issuedCount st bk.id = 0 →
      delete_book st bid =
        Except.ok { st with
          books := removeFirst st.books (fun b => b.id == bid) }) := by
  constructor
  · intro hne
    refine ⟨?_, List.mem_of_find?_eq_some hfind⟩
    have hcond : ((st.transactions.filter (fun t =>
        t.book_id == bk.id && t.status == "issued")).length != 0) = true := by
      unfold issuedCount at hne
      simpa [bne_iff_ne] using hne
    unfold delete_book
    rw [hfind]
    simp only [hcond, if_true]
  · intro hz
    have hcond : ((st.transactions.filter (fun t =>
        t.book_id == bk.id && t.status == "issued")).length != 0) = false := by
      unfold issuedCount at hz
      simpa [bne_iff_ne] using hz
    unfold delete_book
    rw [hfind]
    simp only [hcond, Bool.false_eq_true, if_false]

/-- Claim C6 witness: deleting the book with one open loan fails with
ConflictError while the record remains; deleting it once the loan is
returned succeeds and removes the record. -/
theorem deleteBook_issued_guard_witness :
    (delete_book stIssued 1 = Except.error LibError.conflict ∧
      bookA ∈ stIssued.books) ∧
    delete_book stReturned 1 =
      Except.ok { stReturned with
        books := removeFirst stReturned.books (fun b => b.id == 1) } :=
  ⟨(deleteBook_issued_guard stIssued 1 bookA (by decide)).1 (by decide),
    (deleteBook_issued_guard stReturned 1 bookA (by decide)).2 (by decide)⟩

/-! ## Claim C7 -/

/-- A three-copy book with all copies on the shelf. -/
def bookEdit : Book := ⟨1, "T", "A", none, "", some "", 3, 3, "Available"⟩

/-- State holding only `bookEdit`. -/
def stEdit : LibState := ⟨[], [bookEdit], [], 1, 2, 1⟩

/-- Claim C7, counterexample to the claim as stated: supplying
`newTotalCopies = 0` to `edit_book` leaves `available_copies = 1` (the 0
is coerced to 1 before the delta is applied), not
`max 0 (3 + (0 - 3)) = 0` as the formula of the claim requires. -/
theorem editBook_copies_counterexample :
    (okState (edit_book stEdit 1 "T" "A" "" "" "" (FormInt.num 0))).map
      (fun s => s.books.map (fun b => b.available_copies)) = some [1] ∧
    ¬ ((1 : Int) = max 0 (bookEdit.available_copies +
        (0 - bookEdit.total_copies))) :=
  ⟨rfl, by decide⟩

/-- Claim C7 (amended): the delta applied to `available_copies` (floored
at 0) uses the *coerced* new total, not the supplied one: the supplied
value is first mapped by `coerceEditCopies` (a non-numeric field falls
back to the old total; a numeric value below 1 becomes 1; a missing field
becomes the old total clamped to at least 1), and then
`available_copies := max 0 (available_copies + (coerced - oldTotal))`. -/
theorem editBook_copies_delta (st : LibState) (bid : Nat)
    (t a i p c : String) (cp : FormInt) (bk : Book)
    (hfind : st.books.find? (fun b => b.id == bid) = some bk)
    (ht : ¬ pyStrip t = "") (ha : ¬ pyStrip a = "") :
    edit_book st bid t a i p c cp =
      Except.ok { st with
        books := updateFirst st.books (fun b => b.id == bid) (fun b =>
          { b with
            title := pyStrip t, author := pyStrip a,
            isbn := normIsbn i,
            publisher := pyStrip p, category := some (pyStrip c),
            total_copies := coerceEditCopies bk.total_copies cp,
            available_copies := max 0 (b.available_copies +
              (coerceEditCopies bk.total_copies cp -
                bk.total_copies)) }) } := by
  have hcond : (pyStrip t == "" || pyStrip a == "") = false := by
    simp [ht, ha]
  unfold edit_book
  rw [hfind]
  simp only [hcond, Bool.false_eq_true, if_false]

/-- Claim C7 witness: raising the total from 3 to 7 adds the delta 4 to
the available count. -/
theorem editBook_copies_delta_witness :
    edit_book stEdit 1 "T" "A" "" "" "" (FormInt.num 7) =
      Except.ok { stEdit with
        books := updateFirst stEdit.books (fun b => b.id == 1) (fun b =>
          { b with
            title := pyStrip "T", author := pyStrip "A",
            isbn := normIsbn "",
            publisher := pyStrip "", category := some (pyStrip ""),
            total_copies := coerceEditCopies bookEdit.total_copies
              (FormInt.num 7),
            available_copies := max 0 (b.available_copies +
              (coerceEditCopies bookEdit.total_copies (FormInt.num 7) -
                bookEdit.total_copies)) }) } :=
  editBook_copies_delta stEdit 1 "T" "A" "" "" "" (FormInt.num 7) bookEdit
    (by decide) (by decide) (by decide)

/-! ## Claim C8 -/

/-- Claim C8: a registration attempt (nonempty trimmed username, password
and email) whose username is already taken, or whose email is already
taken under case-insensitive comparison, fails with ConflictError — an
error result, so no user row is created.  States produced by `register`
store emails lower-cased, which the `hlower` hypothesis records. -/
theorem register_taken_conflict (st : LibState)
    (username password name email : String)
    (hu : ¬ pyStrip username = "") (hp : ¬ pyStrip password = "")
    (he : ¬ pyLower (pyStrip email) = "")
    (hlower : ∀ u ∈ st.users, pyLower u.email = u.email)
    (taken : (∃ u ∈ st.users, u.username = pyStrip username) ∨
      (∃ u ∈ st.users, pyLower u.email = pyLower (pyStrip email))) :
    register st username password name email =
      Except.error LibError.conflict := by
  unfold register
  split
  · rename_i hcond
    exfalso
    simp only [Bool.or_eq_true, beq_iff_eq] at hcond
    rcases hcond with (h | h) | h
    · exact hu h
    · exact hp h
    · exact he h
  · split
    · rfl
    · rename_i hnu
      split
      · rfl
      · rename_i hnem
        exfalso
        rcases taken with ⟨u, hmem, hequ⟩ | ⟨u, hmem, heqe⟩
        · apply hnu
          rw [List.any_eq_true]
          exact ⟨u, hmem, by simp [hequ]⟩
        · apply hnem
          rw [List.any_eq_true]
          refine ⟨u, hmem, ?_⟩
          have hueq : u.email = pyLower (pyStrip email) := by
            rw [← hlower u hmem, heqe]
          simp [hueq]

/-- Claim C8 witness: with `alice@example.com` registered, a registration
using `" ALICE@Example.Com "` (different case, extra spaces) fails with
ConflictError. -/
theorem register_taken_conflict_witness :
    register stIssued "bob" "pw" "Bob" " ALICE@Example.Com " =
      Except.error LibError.conflict :=
  register_taken_conflict stIssued "bob" "pw" "Bob" " ALICE@Example.Com "
    (by decide) (by decide) (by decide) (by decide)
    (Or.inr ⟨userA, by decide, by decide⟩)

/-! ## Claim C9 -/

/-- Claim C9: one bulk-import row is skipped (accumulator unchanged) when
the trimmed title or author is empty or a book with the same
(title, author) pair already exists; otherwise exactly one book is
created with `total_copies = 1` and `available_copies = 0` exactly when
the normalized row status is `"issued"` (1 otherwise). -/
theorem importRow_skip_or_create (books : List Book) (nextId : Nat)
    (row : CsvRow) :
    ((pyStrip row.title = "" ∨ pyStrip row.author = "") →
      importRow (books, nextId) row = (books, nextId)) ∧
    ((∃ b ∈ books, b.title = pyStrip row.title ∧
        b.author = pyStrip row.author) →
      importRow (books, nextId) row = (books, nextId)) ∧
    (¬ pyStrip row.title = "" → ¬ pyStrip row.author = "" →
      (¬ ∃ b ∈ books, b.title = pyStrip row.title ∧
        b.author = pyStrip row.author) →
      importRow (books, nextId) row = (books ++ [
        { id := nextId, title := pyStrip row.title,
          author := pyStrip row.author,
          isbn := none, publisher := "",
          category := if pyStrip row.category == "" then none
            else some (pyStrip row.category),
          total_copies := 1,
          available_copies := if pyLower (pyStrip row.status) == "issued"
            then 0 else 1,
          status := if pyLower (pyStrip row.status) == "available"
            then "Available" else "Issued" }], nextId + 1)) := by
  refine ⟨?_, ?_, ?_⟩
  · intro h
    have hcond : (pyStrip row.title == "" || pyStrip row.author == "") =
        true := by
      rcases h with h | h <;> simp [h]
    unfold importRow
    simp only [hcond, if_true]
  · intro hdup
    unfold importRow
    split
    · rfl
    · rcases hdup with ⟨b, hmem, hbt, hba⟩
      have hany : (books.any (fun b => b.title == pyStrip row.title &&
          b.author == pyStrip row.author)) = true := by
        rw [List.any_eq_true]
        exact ⟨b, hmem, by simp [hbt, hba]⟩
      simp only [hany, if_true]
  · intro ht ha hnodup
    have h1 : (pyStrip row.title == "" || pyStrip row.author == "") =
        false := by simp [ht, ha]
    have h2 : (books.any (fun b => b.title == pyStrip row.title &&
        b.author == pyStrip row.author)) = false := by
      by_contra hc
      rw [Bool.not_eq_false, List.any_eq_true] at hc
      rcases hc with ⟨b, hmem, hb⟩
      simp only [Bool.and_eq_true, beq_iff_eq] at hb
      exact hnodup ⟨b, hmem, hb.1, hb.2⟩
    unfold importRow
    simp only [h1, h2, Bool.false_eq_true, if_false]

/-- Claim C9 witness: importing the row (" T ", "A", "", "Issued ") into
an empty catalog creates one book with 1 total copy and 0 available. -/
theorem importRow_skip_or_create_witness :
    importRow ([], 5) ⟨" T ", "A", "", "Issued "⟩ = ([
      { id := 5, title := pyStrip " T ", author := pyStrip "A",
        isbn := none, publisher := "",
        category := if pyStrip "" == "" then none
          else some (pyStrip ""),
        total_copies := 1,
        available_copies := if pyLower (pyStrip "Issued ") == "issued"
          then 0 else 1,
        status := if pyLower (pyStrip "Issued ") == "available"
          then "Available" else "Issued" }], 6) :=
  (importRow_skip_or_create [] 5 ⟨" T ", "A", "", "Issued "⟩).2.2
    (by decide) (by decide) (by simp)

/-! ## Claim C10 -/

/-- Claim C10: with a valid title and author, a `copies` form value that
is non-numeric or numerically below 1 is silently coerced to 1: the call
succeeds and the created book has `total_copies = available_copies = 1`. -/
theorem addBook_copies_coerced (st : LibState)
    (t a i p c : String) (cp : FormInt)
    (ht : ¬ pyStrip t = "") (ha : ¬ pyStrip a = "")
    (hc : cp = FormInt.nonNumeric ∨ ∃ n, cp = FormInt.num n ∧ n < 1) :
    add_book st t a i p c cp =
      Except.ok { st with
        books := st.books ++ [
          { id := st.nextBookId, title := pyStrip t, author := pyStrip a,
            isbn := normIsbn i, publisher := pyStrip p,
            category := some (pyStrip c), total_copies := 1,
            available_copies := 1, status := "Available" }],
        nextBookId := st.nextBookId + 1 } := by
  have hcoerce : coerceAddCopies cp = 1 := by
    rcases hc with h | ⟨n, h, hn⟩ <;> subst h
    · rfl
    · simp [coerceAddCopies, hn]
  have hcond : (pyStrip t == "" || pyStrip a == "") = false := by
    simp [ht, ha]
  unfold add_book
  simp only [hcond, Bool.false_eq_true, if_false, hcoerce]

/-- Claim C10 witness: `copies = 0` (below 1) yields a book with one
total and one available copy. -/
theorem addBook_copies_coerced_witness :
    add_book emptyState "T" "A" "" "" "" (FormInt.num 0) =
      Except.ok { emptyState with
        books := emptyState.books ++ [
          { id := emptyState.nextBookId, title := pyStrip "T",
            author := pyStrip "A", isbn := normIsbn "",
            publisher := pyStrip "", category := some (pyStrip ""),
            total_copies := 1, available_copies := 1,
            status := "Available" }],
        nextBookId := emptyState.nextBookId + 1 } :=
  addBook_copies_coerced emptyState "T" "A" "" "" "" (FormInt.num 0)
    (by decide) (by decide) (Or.inr ⟨0, rfl, by decide⟩)
